import Mathlib

/-!
Verification of the Flask water-level forecasting backend (`app.py`).

The file shallowly embeds the pure logic of `app.py`:

* `allowed_file` — the upload extension check;
* `preprocess_data_for_prediction` — zero-padding / last-`time_step`
  windowing of the cleaned `Level` series;
* the iterative forecasting loop of `upload_and_forecast`
  (`forecastLoop`, with `window`/`prediction` describing the window after
  each feedback step);
* the data-cleaning pipeline (`to_datetime`, `to_numeric` represented by
  `Option` level cells, `dropna`, `sort_values`);
* the `/api/upload` endpoint itself (`upload_and_forecast`), including the
  save/finally file management and the number of `model.predict` calls;
* the visitor counter and the routes that may touch it.

Floating point values flowing through the model are represented by `ℚ`;
the LSTM model itself (`model.predict`) is an arbitrary function
`List ℚ → ℚ` of the 100-entry window.  Calendar dates are represented by
their day number (an `Int`): pandas `Timestamp`s sit on a day grid here
since `pd.date_range` is used with the default daily frequency, and
`strftime('%Y-%m-%d')` is injective on that grid.
-/

namespace App

/-- `ALLOWED_EXTENSIONS = {'xlsx'}`, as the list of its lowercase
extension spellings. -/
def ALLOWED_EXTENSIONS : List (List Char) := ["xlsx".toList]

/-- `filename.rsplit('.', 1)[1]`: the characters after the last `'.'`.
Only meaningful when the filename contains a dot (Python would raise
otherwise, but `allowed_file` short-circuits before indexing). -/
def afterLastDot (s : List Char) : List Char :=
  (s.reverse.takeWhile (fun c => c ≠ '.')).reverse

/-- `allowed_file` from app.py:
`'.' in filename and filename.rsplit('.', 1)[1].lower() in ALLOWED_EXTENSIONS`. -/
def allowed_file (filename : List Char) : Bool :=
  filename.contains '.' &&
    ALLOWED_EXTENSIONS.contains ((afterLastDot filename).map Char.toLower)

/-- `preprocess_data_for_prediction` from app.py, on the `Level` column of
the cleaned dataframe.  If fewer than `time_step` values are present the
series is padded in front with zeros (`np.vstack([padding, data])`), then
the last `time_step` values are taken (`data[-time_step:]`).  The
`reshape(1, time_step, 1)` only adds singleton axes, so the model input is
embedded as the bare list of its `time_step` entries. -/
def preprocess_data_for_prediction (levels : List ℚ) (time_step : Nat) : List ℚ :=
  let data := if levels.length < time_step then
      List.replicate (time_step - levels.length) 0 ++ levels
    else
      levels
  data.drop (data.length - time_step)

/-- One feedback step of the forecasting loop: drop the oldest window
entry and append the new prediction
(`np.append(current_input[:, 1:, :], new_input_step.reshape(1, 1, 1), axis=1)`). -/
def slideWindow (w : List ℚ) (p : ℚ) : List ℚ :=
  w.drop 1 ++ [p]

/-- The window fed to `model.predict` after `k` iterations of the loop,
starting from the initial window `w0`. -/
def window (predict : List ℚ → ℚ) (w0 : List ℚ) : Nat → List ℚ
  | 0 => w0
  | k + 1 => slideWindow (window predict w0 k) (predict (window predict w0 k))

/-- The prediction produced by iteration `k` (0-indexed): `model.predict`
applied to the window after `k` feedback steps. -/
def prediction (predict : List ℚ → ℚ) (w0 : List ℚ) (k : Nat) : ℚ :=
  predict (window predict w0 k)

/-- The forecasting loop of `upload_and_forecast`:
`for _ in range(n): p = model.predict(cur); forecast.append(p); cur = cur[1:] ++ [p]`.
Returns the forecast list in append order, the final window, and the
number of `model.predict` calls made. -/
def forecastLoop (predict : List ℚ → ℚ) : Nat → List ℚ → List ℚ × List ℚ × Nat
  | 0, cur => ([], cur, 0)
  | n + 1, cur =>
    let p := predict cur
    let r := forecastLoop predict n (slideWindow cur p)
    (p :: r.1, r.2.1, r.2.2 + 1)

/-- `pd.date_range(start=last_date + 1 day, periods=n)` with the default
daily frequency: the `n` consecutive day numbers after `lastDate`. -/
def forecastDates (lastDate : Int) (n : Nat) : List Int :=
  (List.range n).map (fun i : Nat => lastDate + 1 + (i : Int))

/-- A cell of the uploaded `Date` column, as `pd.to_datetime` sees it:
either a parseable date (its day number), a missing value (`NaN`, which
coerces to `NaT` and is later dropped by `dropna`), or an unparseable
value on which `pd.to_datetime` (default `errors='raise'`) raises. -/
inductive DateCell where
  | valid (day : Int)
  | missing
  | invalid
deriving DecidableEq, Repr

/-- `pd.to_datetime` on one cell: `Except.error` models the raise. -/
def parseDateCell : DateCell → Except Unit (Option Int)
  | .valid d => .ok (some d)
  | .missing => .ok none
  | .invalid => .error ()

/-- `df['Date'] = pd.to_datetime(df['Date'])`: parses the whole column,
raising (error) as soon as any cell is unparseable. -/
def to_datetime (cells : List DateCell) : Except Unit (List (Option Int)) :=
  cells.mapM parseDateCell

/-- The spreadsheet as read by `pd.read_excel`: whether the `Date` and
`Level` columns are present, and the aligned rows.  A `Level` cell is
embedded as the result of `pd.to_numeric(..., errors='coerce')`: `some q`
for a numeric cell, `none` (NaN) for a non-numeric one — that coercion is
total and never raises. -/
structure ExcelFile where
  hasDateCol : Bool
  hasLevelCol : Bool
  rows : List (DateCell × Option ℚ)
deriving DecidableEq, Repr

/-- `df.dropna(subset=['Date', 'Level'])`: keep exactly the rows whose
parsed date and coerced level are both present. -/
def dropna (rows : List (Option Int × Option ℚ)) : List (Int × ℚ) :=
  rows.filterMap (fun r =>
    match r with
    | (some d, some l) => some (d, l)
    | _ => none)

/-- `df.sort_values('Date')`: sort the rows by date, ascending.  Embedded
as insertion sort; the claims about the endpoint rely only on the result
being an ascending permutation of the input (pandas' default sort kind,
quicksort, guarantees nothing more either). -/
def sort_values (rows : List (Int × ℚ)) : List (Int × ℚ) :=
  List.insertionSort (fun a b => a.1 ≤ b.1) rows

/-- The cleaned, sorted series `df` of `upload_and_forecast` right before
forecasting: `none` when `pd.to_datetime` raises on the `Date` column. -/
def cleanedSeries (xf : ExcelFile) : Option (List (Int × ℚ)) :=
  match to_datetime (xf.rows.map Prod.fst) with
  | .error _ => none
  | .ok parsed => some (sort_values (dropna (parsed.zip (xf.rows.map Prod.snd))))

/-- The parts of the POST request that `upload_and_forecast` inspects:
whether `'file' in request.files`, the submitted filename, and the result
of `pd.read_excel` on the saved file (`Except.error` models a raise while
reading, e.g. a corrupt file). -/
structure UploadRequest where
  hasFilePart : Bool
  filename : List Char
  readResult : Except Unit ExcelFile

/-- The JSON responses `upload_and_forecast` can produce, by branch.
`success` carries exactly the two keys of the success payload:
`original_data` and `forecast_data`, each a `dates`/`levels` pair. -/
inductive UploadResponse where
  /-- 500 `"LSTM model is not loaded on the server."` -/
  | modelNotLoaded
  /-- 400 `"No file part"` -/
  | noFilePart
  /-- 400 `"No selected file"` -/
  | noSelectedFile
  /-- 400 `"Invalid file type. Please upload a .xlsx file."` -/
  | invalidFileType
  /-- 400 `"The .xlsx file must contain 'Date' and 'Level' columns."` -/
  | missingColumns
  /-- 500 `"An error occurred while processing the file: ..."` (the
  `except Exception` handler) -/
  | processingError
  /-- 200 `{"original_data": {dates, levels}, "forecast_data": {dates, levels}}` -/
  | success (origDates : List Int) (origLevels : List ℚ)
      (fcDates : List Int) (fcLevels : List ℚ)
deriving DecidableEq, Repr

/-- What one call of `upload_and_forecast` did: the response, how many
times `model.predict` ran, whether the upload was saved into the uploads
folder, and whether that saved file still exists when the endpoint
returns. -/
structure UploadOutcome where
  resp : UploadResponse
  predictCalls : Nat
  savedFile : Bool
  fileLeft : Bool
deriving DecidableEq, Repr

/-- The `try:` body of `upload_and_forecast` (everything between
`file.save` and the `finally:`), producing the response together with the
number of `model.predict` calls. -/
def processUpload (predict : List ℚ → ℚ) (readResult : Except Unit ExcelFile) :
    UploadResponse × Nat :=
  match readResult with
  | .error _ => (.processingError, 0)
  | .ok xf =>
    if ¬(xf.hasDateCol && xf.hasLevelCol) then
      (.missingColumns, 0)
    else
      match cleanedSeries xf with
      | none => (.processingError, 0)
      | some df =>
        let time_step := 100
        let input_data := preprocess_data_for_prediction (df.map Prod.snd) time_step
        let n_future := 30
        let r := forecastLoop predict n_future input_data
        match (df.map Prod.fst).getLast? with
        | none => (.processingError, r.2.2)
        | some last_date =>
          (.success (df.map Prod.fst) (df.map Prod.snd)
            (forecastDates last_date n_future) r.1, r.2.2)

/-- The `/api/upload` endpoint `upload_and_forecast`.  `modelLoaded`
embeds whether the startup `tf.keras.models.load_model` succeeded
(`model is not None`); `predict` is the loaded model's inference
function. -/
def upload_and_forecast (modelLoaded : Bool) (predict : List ℚ → ℚ)
    (req : UploadRequest) : UploadOutcome :=
  if ¬modelLoaded then
    ⟨.modelNotLoaded, 0, false, false⟩
  else if ¬req.hasFilePart then
    ⟨.noFilePart, 0, false, false⟩
  else if req.filename = [] then
    ⟨.noSelectedFile, 0, false, false⟩
  else if allowed_file req.filename then
    -- file.save(filepath); try: ... finally: os.remove(filepath)
    let r := processUpload predict req.readResult
    ⟨r.1, r.2, true, false⟩
  else
    ⟨.invalidFileType, 0, false, false⟩

/-- The `index` route (`/`): bumps the global `visitor_count` by one and
renders the page. -/
def index_route (visitor_count : Nat) : Nat :=
  visitor_count + 1

/-- The `/api/stats` route: returns the current count, leaving it
unchanged. -/
def get_stats (visitor_count : Nat) : Nat × Nat :=
  (visitor_count, visitor_count)

/-- The routes of the application, as dispatch targets. -/
inductive Route where
  | index
  | admin
  | stats
  | upload
  | analyze
  | chat
deriving DecidableEq, Repr

/-- Effect of serving one request on the global `visitor_count`: only
`index` assigns to it (`global visitor_count; visitor_count += 1`);
`admin`, `get_stats`, `upload_and_forecast`, `analyze_data` and
`chat_with_data` never mention it except for the read in `get_stats`. -/
def routeStep : Route → Nat → Nat
  | .index, c => index_route c
  | .admin, c => c
  | .stats, c => (get_stats c).2
  | .upload, c => c
  | .analyze, c => c
  | .chat, c => c

/-- The visitor counter after serving a sequence of requests, starting
from count `c` (the module initialises it to 0). -/
def serveAll (rs : List Route) (c : Nat) : Nat :=
  rs.foldl (fun acc r => routeStep r acc) c

/-! ### Helper lemmas -/

theorem length_preprocess (levels : List ℚ) (ts : Nat) :
    (preprocess_data_for_prediction levels ts).length = ts := by
  unfold preprocess_data_for_prediction
  by_cases h : levels.length < ts
  · simp only [if_pos h, List.length_drop, List.length_append, List.length_replicate]
    omega
  · simp only [if_neg h, List.length_drop]
    omega

theorem length_slideWindow (w : List ℚ) (p : ℚ) (h : 0 < w.length) :
    (slideWindow w p).length = w.length := by
  unfold slideWindow
  simp only [List.length_append, List.length_drop, List.length_cons, List.length_nil]
  omega

theorem length_window (predict : List ℚ → ℚ) (w0 : List ℚ) (h : 0 < w0.length) :
    ∀ k, (window predict w0 k).length = w0.length := by
  intro k
  induction k with
  | zero => rfl
  | succ k ih =>
    rw [window, length_slideWindow _ _ (by omega)]
    exact ih

theorem window_slide (predict : List ℚ → ℚ) (w0 : List ℚ) :
    ∀ k, window predict (slideWindow w0 (predict w0)) k = window predict w0 (k + 1) := by
  intro k
  induction k with
  | zero => rfl
  | succ k ih => rw [window, ih]; rfl

theorem forecastLoop_calls (predict : List ℚ → ℚ) :
    ∀ n w, (forecastLoop predict n w).2.2 = n := by
  intro n
  induction n with
  | zero => intro w; rfl
  | succ n ih => intro w; rw [forecastLoop, ih]

theorem forecastLoop_forecasts (predict : List ℚ → ℚ) :
    ∀ n w, (forecastLoop predict n w).1 =
      (List.range n).map (prediction predict w) := by
  intro n
  induction n with
  | zero => intro w; rfl
  | succ n ih =>
    intro w
    rw [forecastLoop, ih, List.range_succ_eq_map]
    simp only [List.map_cons, List.map_map]
    refine congrArg₂ _ rfl (congrArg₂ _ (funext fun k => ?_) rfl)
    simp only [Function.comp_apply, prediction, window_slide]

theorem routeStep_le (r : Route) (c : Nat) : c ≤ routeStep r c := by
  cases r <;> simp [routeStep, index_route, get_stats]

theorem serveAll_le (rs : List Route) : ∀ c, c ≤ serveAll rs c := by
  induction rs with
  | nil => intro c; exact Nat.le_refl c
  | cons r rs ih =>
    intro c
    exact Nat.le_trans (routeStep_le r c) (ih (routeStep r c))

/-! ### Claim theorems -/

/-- Claim C2: the forecasting window has a fixed size.  The model input
produced by `preprocess_data_for_prediction` has exactly
`time_step = 100` entries (the `(1, 100, 1)` tensor), and after every
iteration of the forecasting loop the window passed to the next
`model.predict` call still has exactly 100 entries. -/
theorem window_size_invariant (data : List ℚ) (predict : List ℚ → ℚ) (k : Nat) :
    (preprocess_data_for_prediction data 100).length = 100 ∧
    (window predict (preprocess_data_for_prediction data 100) k).length = 100 := by
  have h := length_preprocess data 100
  exact ⟨h, by rw [length_window predict _ (by omega) k, h]⟩

/-- Claim C8: if the cleaned series has fewer than `time_step = 100`
points, `preprocess_data_for_prediction` left-pads it with zeros so the
model input is the zeros followed by all observed values, totalling
exactly 100 entries; with 100 or more points, exactly the last 100
observed values are used with no padding. -/
theorem preprocess_padding_spec (levels : List ℚ) :
    (levels.length < 100 →
      preprocess_data_for_prediction levels 100 =
        List.replicate (100 - levels.length) 0 ++ levels ∧
      (List.replicate (100 - levels.length) (0 : ℚ) ++ levels).length = 100) ∧
    (100 ≤ levels.length →
      preprocess_data_for_prediction levels 100 =
        levels.drop (levels.length - 100) ∧
      (levels.drop (levels.length - 100)).length = 100) := by
  constructor
  · intro h
    have hlen : (List.replicate (100 - levels.length) (0 : ℚ) ++ levels).length = 100 := by
      simp only [List.length_append, List.length_replicate]
      omega
    refine ⟨?_, hlen⟩
    unfold preprocess_data_for_prediction
    simp only [if_pos h, hlen, Nat.sub_self, List.drop_zero]
  · intro h
    have hnot : ¬levels.length < 100 := by omega
    refine ⟨?_, ?_⟩
    · unfold preprocess_data_for_prediction
      simp only [if_neg hnot]
    · simp only [List.length_drop]
      omega

/-- Witness for C8 at a 2-entry series (padded) and a 150-entry series
(truncated to the last 100). -/
theorem preprocess_padding_spec_witness :
    (([1, 2] : List ℚ).length < 100 ∧
      (preprocess_data_for_prediction [1, 2] 100 =
        List.replicate (100 - ([1, 2] : List ℚ).length) 0 ++ [1, 2] ∧
      (List.replicate (100 - ([1, 2] : List ℚ).length) (0 : ℚ) ++ [1, 2]).length = 100)) ∧
    (100 ≤ (List.replicate 150 (5 : ℚ)).length ∧
      (preprocess_data_for_prediction (List.replicate 150 5) 100 =
        (List.replicate 150 (5 : ℚ)).drop ((List.replicate 150 (5 : ℚ)).length - 100) ∧
      ((List.replicate 150 (5 : ℚ)).drop ((List.replicate 150 (5 : ℚ)).length - 100)).length = 100)) :=
  ⟨⟨by decide, (preprocess_padding_spec [1, 2]).1 (by decide)⟩,
   ⟨by simp, (preprocess_padding_spec (List.replicate 150 5)).2 (by simp)⟩⟩

/-- Claim C4: `allowed_file` returns true iff the filename contains a
`'.'` and the substring after its last `'.'` equals `"xlsx"`
case-insensitively; and every POST to `/api/upload` with a non-empty
filename that fails this check gets the 400 "Invalid file type" response,
with `model.predict` never called. -/
theorem allowed_file_spec :
    (∀ filename : List Char,
      allowed_file filename = true ↔
        filename.contains '.' = true ∧
        (afterLastDot filename).map Char.toLower = "xlsx".toList) ∧
    (∀ (predict : List ℚ → ℚ) (req : UploadRequest),
      req.hasFilePart = true → req.filename ≠ [] →
      allowed_file req.filename = false →
      (upload_and_forecast true predict req).resp = .invalidFileType ∧
      (upload_and_forecast true predict req).predictCalls = 0) := by
  constructor
  · intro s
    simp [allowed_file, ALLOWED_EXTENSIONS, List.contains_cons]
  · intro predict req h1 h2 h3
    simp [upload_and_forecast, h1, h2, h3]

/-- Witness for C4: `"archive.XLSX"` satisfies the right-hand side via the
equivalence, and an upload of `"data.csv"` is rejected with
"Invalid file type" and zero `model.predict` calls. -/
theorem allowed_file_spec_witness :
    ("archive.XLSX".toList.contains '.' = true ∧
      (afterLastDot "archive.XLSX".toList).map Char.toLower = "xlsx".toList) ∧
    ((upload_and_forecast true (fun _ => 0)
        ⟨true, "data.csv".toList, .error ()⟩).resp = .invalidFileType ∧
      (upload_and_forecast true (fun _ => 0)
        ⟨true, "data.csv".toList, .error ()⟩).predictCalls = 0) :=
  ⟨(allowed_file_spec.1 "archive.XLSX".toList).mp (by decide),
   allowed_file_spec.2 (fun _ => 0) ⟨true, "data.csv".toList, .error ()⟩
     rfl (by decide) (by decide)⟩

/-- Claim C1: each loop iteration computes one prediction from the current
window and forms the next window by dropping the oldest value and
appending that prediction.  For every `k ≥ 1` (1-indexed predictions: the
`k`-th prediction is `prediction … (k-1)`): the window for the `(k+1)`-th
prediction is the previous window slid by the `k`-th prediction, its last
element is the `k`-th prediction, its first 99 elements are the last 99
elements of the previous window, and the `(k+1)`-th prediction is
`model.predict` of that window. -/
theorem feedback_window_spec (predict : List ℚ → ℚ) (w0 : List ℚ) (k : Nat)
    (hlen : w0.length = 100) (hk : 1 ≤ k) :
    window predict w0 k =
      slideWindow (window predict w0 (k - 1)) (prediction predict w0 (k - 1)) ∧
    (window predict w0 k).getLast? = some (prediction predict w0 (k - 1)) ∧
    (window predict w0 k).take 99 = (window predict w0 (k - 1)).drop 1 ∧
    (window predict w0 (k - 1)).drop 1 =
      (window predict w0 (k - 1)).drop ((window predict w0 (k - 1)).length - 99) ∧
    prediction predict w0 k = predict (window predict w0 k) ∧
    (∀ n : Nat, (forecastLoop predict n w0).1 =
      (List.range n).map (prediction predict w0)) := by
  obtain ⟨j, rfl⟩ : ∃ j, k = j + 1 := ⟨k - 1, by omega⟩
  have hwj : (window predict w0 j).length = 100 := by
    rw [length_window predict w0 (by omega) j, hlen]
  have hdrop : ((window predict w0 j).drop 1).length = 99 := by
    rw [List.length_drop, hwj]
  simp only [Nat.add_sub_cancel]
  refine ⟨rfl, ?_, ?_, ?_, rfl, fun n => forecastLoop_forecasts predict n w0⟩
  · rw [window, slideWindow, List.getLast?_concat]
    rfl
  · rw [window, slideWindow, List.take_left' hdrop]
  · rw [hwj]

/-- Witness for C1 at the constant-zero model, the all-zero initial
window, and `k = 1`. -/
theorem feedback_window_spec_witness :
    (List.replicate 100 (0 : ℚ)).length = 100 ∧ 1 ≤ 1 ∧
    (window (fun _ => 0) (List.replicate 100 0) 1 =
      slideWindow (window (fun _ => 0) (List.replicate 100 0) (1 - 1))
        (prediction (fun _ => 0) (List.replicate 100 0) (1 - 1)) ∧
    (window (fun _ => 0) (List.replicate 100 0) 1).getLast? =
      some (prediction (fun _ => 0) (List.replicate 100 0) (1 - 1)) ∧
    (window (fun _ => 0) (List.replicate 100 0) 1).take 99 =
      (window (fun _ => 0) (List.replicate 100 0) (1 - 1)).drop 1 ∧
    (window (fun _ => 0) (List.replicate 100 0) (1 - 1)).drop 1 =
      (window (fun _ => 0) (List.replicate 100 0) (1 - 1)).drop
        ((window (fun _ => 0) (List.replicate 100 0) (1 - 1)).length - 99) ∧
    prediction (fun _ => 0) (List.replicate 100 0) 1 =
      (fun _ => (0 : ℚ)) (window (fun _ => 0) (List.replicate 100 0) 1) ∧
    (∀ n : Nat, (forecastLoop (fun _ => 0) n (List.replicate 100 0)).1 =
      (List.range n).map (prediction (fun _ => 0) (List.replicate 100 0)))) :=
  ⟨by simp, Nat.le_refl 1,
   feedback_window_spec (fun _ => 0) (List.replicate 100 0) 1 (by simp) (Nat.le_refl 1)⟩

/-- A sample uploaded spreadsheet: both columns present, two rows with
parseable dates (day numbers 3 and 1) and numeric levels. -/
def sampleFile : ExcelFile :=
  ⟨true, true, [(.valid 3, some 7), (.valid 1, some 5)]⟩

/-- A sample POST request carrying `sampleFile` under an allowed
filename. -/
def sampleReq : UploadRequest :=
  ⟨true, "levels.xlsx".toList, .ok sampleFile⟩

/-- Claim C3: on a successful upload the loop runs exactly `n_future = 30`
iterations (30 `model.predict` calls) and terminates; `forecast_data`
holds exactly 30 levels, one per iteration in iteration order, and
exactly 30 dates: the 30 consecutive days immediately after the last
observed date of the cleaned series. -/
theorem upload_success_thirty (predict : List ℚ → ℚ) (req : UploadRequest)
    (xf : ExcelFile) (df : List (Int × ℚ)) (last : Int)
    (h1 : req.hasFilePart = true) (h2 : req.filename ≠ [])
    (h3 : allowed_file req.filename = true)
    (h4 : req.readResult = Except.ok xf)
    (h5 : xf.hasDateCol = true) (h6 : xf.hasLevelCol = true)
    (h7 : cleanedSeries xf = some df)
    (h8 : (df.map Prod.fst).getLast? = some last) :
    upload_and_forecast true predict req =
      ⟨.success (df.map Prod.fst) (df.map Prod.snd) (forecastDates last 30)
          ((List.range 30).map (prediction predict
            (preprocess_data_for_prediction (df.map Prod.snd) 100))),
        30, true, false⟩ ∧
    ((List.range 30).map (prediction predict
      (preprocess_data_for_prediction (df.map Prod.snd) 100))).length = 30 ∧
    (forecastDates last 30).length = 30 ∧
    (∀ i : Nat, i < 30 →
      (forecastDates last 30)[i]? = some (last + 1 + (i : Int))) := by
  refine ⟨?_, by simp only [List.length_map, List.length_range],
    by simp only [forecastDates, List.length_map, List.length_range], ?_⟩
  · simp [upload_and_forecast, h1, h2, h3, processUpload, h4, h5, h6, h7, h8,
      forecastLoop_calls, forecastLoop_forecasts]
  · intro i hi
    simp only [forecastDates, List.getElem?_map, List.getElem?_range hi,
      Option.map_some']

/-- Witness for C3: the sample upload succeeds with the cleaned series
`[(1, 5), (3, 7)]`, 30 predict calls, and forecast dates 4, 5, …, 33. -/
theorem upload_success_thirty_witness :
    upload_and_forecast true (fun _ => 0) sampleReq =
      ⟨.success (([((1 : Int), (5 : ℚ)), (3, 7)]).map Prod.fst)
          (([((1 : Int), (5 : ℚ)), (3, 7)]).map Prod.snd)
          (forecastDates 3 30)
          ((List.range 30).map (prediction (fun _ => 0)
            (preprocess_data_for_prediction
              (([((1 : Int), (5 : ℚ)), (3, 7)]).map Prod.snd) 100))),
        30, true, false⟩ ∧
    ((List.range 30).map (prediction (fun _ => 0)
      (preprocess_data_for_prediction
        (([((1 : Int), (5 : ℚ)), (3, 7)]).map Prod.snd) 100))).length = 30 ∧
    (forecastDates 3 30).length = 30 ∧
    (∀ i : Nat, i < 30 →
      (forecastDates 3 30)[i]? = some (3 + 1 + (i : Int))) :=
  upload_success_thirty (fun _ => 0) sampleReq sampleFile
    [((1 : Int), (5 : ℚ)), (3, 7)] 3 rfl (by decide) (by decide) rfl rfl rfl
    (by decide) (by decide)

/-- Claim C5: when the uploaded spreadsheet lacks the `Date` or the
`Level` column, `/api/upload` answers 400 "must contain 'Date' and
'Level' columns" and `model.predict` is never called. -/
theorem missing_columns_spec (predict : List ℚ → ℚ) (req : UploadRequest)
    (xf : ExcelFile)
    (h1 : req.hasFilePart = true) (h2 : req.filename ≠ [])
    (h3 : allowed_file req.filename = true)
    (h4 : req.readResult = Except.ok xf)
    (h5 : xf.hasDateCol = false ∨ xf.hasLevelCol = false) :
    (upload_and_forecast true predict req).resp = .missingColumns ∧
    (upload_and_forecast true predict req).predictCalls = 0 := by
  have hc : (xf.hasDateCol && xf.hasLevelCol) = false := by
    rcases h5 with h | h <;> simp [h]
  simp [upload_and_forecast, h1, h2, h3, processUpload, h4, hc]

/-- Witness for C5: a spreadsheet with a `Date` column but no `Level`
column is rejected with the missing-columns 400 and no predict calls. -/
theorem missing_columns_spec_witness :
    (upload_and_forecast true (fun _ => 0)
      ⟨true, "levels.xlsx".toList, Except.ok ⟨true, false, []⟩⟩).resp =
        .missingColumns ∧
    (upload_and_forecast true (fun _ => 0)
      ⟨true, "levels.xlsx".toList, Except.ok ⟨true, false, []⟩⟩).predictCalls = 0 :=
  missing_columns_spec (fun _ => 0) _ ⟨true, false, []⟩ rfl (by decide)
    (by decide) rfl (Or.inr rfl)

/-- Claim C7: on success `/api/upload` returns exactly the two keys
`original_data` and `forecast_data` (the two payloads of
`UploadResponse.success`), each a `dates`/`levels` pair; `original_data`
is the input series with the rows whose date is missing after parsing or
whose level is non-numeric dropped, the remainder sorted ascending by
date, and its `dates` and `levels` lists of equal length and aligned
index-by-index.  (Dates are embedded as day numbers; `strftime('%Y-%m-%d')`
is their injective textual form.  A date value that `pd.to_datetime`
cannot parse at all raises, so it never reaches a success response —
hypothesis `h7`.) -/
theorem upload_response_shape (predict : List ℚ → ℚ) (req : UploadRequest)
    (xf : ExcelFile) (parsed : List (Option Int)) (df : List (Int × ℚ))
    (last : Int)
    (h1 : req.hasFilePart = true) (h2 : req.filename ≠ [])
    (h3 : allowed_file req.filename = true)
    (h4 : req.readResult = Except.ok xf)
    (h5 : xf.hasDateCol = true) (h6 : xf.hasLevelCol = true)
    (h7 : to_datetime (xf.rows.map Prod.fst) = Except.ok parsed)
    (h8 : df = sort_values (dropna (parsed.zip (xf.rows.map Prod.snd))))
    (h9 : (df.map Prod.fst).getLast? = some last) :
    (upload_and_forecast true predict req).resp =
      UploadResponse.success (df.map Prod.fst) (df.map Prod.snd)
        (forecastDates last 30)
        ((List.range 30).map (prediction predict
          (preprocess_data_for_prediction (df.map Prod.snd) 100))) ∧
    (df.map Prod.fst).length = (df.map Prod.snd).length ∧
    List.Pairwise (fun a b : Int => a ≤ b) (df.map Prod.fst) ∧
    (∀ p : Int × ℚ,
      p ∈ df ↔ (some p.1, some p.2) ∈ parsed.zip (xf.rows.map Prod.snd)) ∧
    (∀ i : Nat, (df.map Prod.fst)[i]? = (df[i]?).map Prod.fst ∧
      (df.map Prod.snd)[i]? = (df[i]?).map Prod.snd) := by
  have hclean : cleanedSeries xf = some df := by
    unfold cleanedSeries
    rw [h7, h8]
  refine ⟨?_, by simp only [List.length_map], ?_, ?_, ?_⟩
  · simp [upload_and_forecast, h1, h2, h3, processUpload, h4, h5, h6, hclean,
      h9, forecastLoop_calls, forecastLoop_forecasts]
  · subst h8
    haveI : IsTotal (Int × ℚ) (fun a b => a.1 ≤ b.1) :=
      ⟨fun a b => Int.le_total a.1 b.1⟩
    haveI : IsTrans (Int × ℚ) (fun a b => a.1 ≤ b.1) :=
      ⟨fun a b c hab hbc => le_trans hab hbc⟩
    have hs : List.Pairwise (fun a b : Int × ℚ => a.1 ≤ b.1)
        (sort_values (dropna (parsed.zip (xf.rows.map Prod.snd)))) := by
      rw [sort_values]
      exact List.sorted_insertionSort (fun a b : Int × ℚ => a.1 ≤ b.1) _
    rw [List.pairwise_map]
    exact hs
  · intro p
    subst h8
    rw [sort_values, List.mem_insertionSort, dropna, List.mem_filterMap]
    constructor
    · rintro ⟨⟨o1, o2⟩, hmem, heq⟩
      cases o1 with
      | none => simp at heq
      | some d =>
        cases o2 with
        | none => simp at heq
        | some l =>
          simp only [Option.some.injEq] at heq
          rw [← heq]
          exact hmem
    · intro h
      exact ⟨(some p.1, some p.2), h, rfl⟩
  · intro i
    simp only [List.getElem?_map, and_self]

/-- Witness for C7 on the sample upload: the success payload carries the
cleaned sorted series `[(1, 5), (3, 7)]` split into aligned `dates` and
`levels`. -/
theorem upload_response_shape_witness :
    (upload_and_forecast true (fun _ => 0) sampleReq).resp =
      UploadResponse.success (([((1 : Int), (5 : ℚ)), (3, 7)]).map Prod.fst)
        (([((1 : Int), (5 : ℚ)), (3, 7)]).map Prod.snd)
        (forecastDates 3 30)
        ((List.range 30).map (prediction (fun _ => 0)
          (preprocess_data_for_prediction
            (([((1 : Int), (5 : ℚ)), (3, 7)]).map Prod.snd) 100))) ∧
    (([((1 : Int), (5 : ℚ)), (3, 7)]).map Prod.fst).length =
      (([((1 : Int), (5 : ℚ)), (3, 7)]).map Prod.snd).length ∧
    List.Pairwise (fun a b : Int => a ≤ b)
      (([((1 : Int), (5 : ℚ)), (3, 7)]).map Prod.fst) ∧
    (∀ p : Int × ℚ,
      p ∈ ([((1 : Int), (5 : ℚ)), (3, 7)]) ↔
        (some p.1, some p.2) ∈
          ([some 3, some 1].zip (sampleFile.rows.map Prod.snd))) ∧
    (∀ i : Nat,
      (([((1 : Int), (5 : ℚ)), (3, 7)]).map Prod.fst)[i]? =
        (([((1 : Int), (5 : ℚ)), (3, 7)])[i]?).map Prod.fst ∧
      (([((1 : Int), (5 : ℚ)), (3, 7)]).map Prod.snd)[i]? =
        (([((1 : Int), (5 : ℚ)), (3, 7)])[i]?).map Prod.snd) :=
  upload_response_shape (fun _ => 0) sampleReq sampleFile [some 3, some 1]
    [((1 : Int), (5 : ℚ)), (3, 7)] 3 rfl (by decide) (by decide) rfl rfl rfl
    rfl (by decide) (by decide)

/-- Claim C9: every upload that passes the file-type check saves the file
into the uploads folder and removes it again before the endpoint returns
(the `finally:` block), whatever the processing outcome — success, a 400,
or the 500 handler; and no call of the endpoint, under any input at all,
leaves a file behind. -/
theorem upload_cleanup_spec (modelLoaded : Bool) (predict : List ℚ → ℚ)
    (req : UploadRequest)
    (h1 : modelLoaded = true) (h2 : req.hasFilePart = true)
    (h3 : req.filename ≠ []) (h4 : allowed_file req.filename = true) :
    (upload_and_forecast modelLoaded predict req).savedFile = true ∧
    (upload_and_forecast modelLoaded predict req).fileLeft = false ∧
    ∀ (m : Bool) (p : List ℚ → ℚ) (r : UploadRequest),
      (upload_and_forecast m p r).fileLeft = false := by
  subst h1
  refine ⟨by simp [upload_and_forecast, h2, h3, h4],
    by simp [upload_and_forecast, h2, h3, h4], ?_⟩
  intro m p r
  rw [upload_and_forecast]
  split
  · rfl
  · split
    · rfl
    · split
      · rfl
      · split <;> rfl

/-- Witness for C9 on the sample upload (which succeeds) — and, through
the same theorem, the universal no-file-left conjunct. -/
theorem upload_cleanup_spec_witness :
    (upload_and_forecast true (fun _ => 0) sampleReq).savedFile = true ∧
    (upload_and_forecast true (fun _ => 0) sampleReq).fileLeft = false ∧
    ∀ (m : Bool) (p : List ℚ → ℚ) (r : UploadRequest),
      (upload_and_forecast m p r).fileLeft = false :=
  upload_cleanup_spec true (fun _ => 0) sampleReq rfl rfl (by decide) (by decide)

/-- Claim C10: a well-formed .xlsx with both columns but no row surviving
cleaning does not hit any 400 validation error: forecasting is attempted,
`df['Date'].iloc[-1]` on the empty series raises, and the endpoint
returns the generic 500 processing error.  The hypothesis covers both an
empty cleaned series (`some []`) and the variant where an unparseable
date value makes `pd.to_datetime` itself raise (`none`). -/
theorem empty_series_error (predict : List ℚ → ℚ) (req : UploadRequest)
    (xf : ExcelFile)
    (h1 : req.hasFilePart = true) (h2 : req.filename ≠ [])
    (h3 : allowed_file req.filename = true)
    (h4 : req.readResult = Except.ok xf)
    (h5 : xf.hasDateCol = true) (h6 : xf.hasLevelCol = true)
    (h7 : cleanedSeries xf = some [] ∨ cleanedSeries xf = none) :
    (upload_and_forecast true predict req).resp = .processingError ∧
    (upload_and_forecast true predict req).resp ≠ .missingColumns ∧
    (upload_and_forecast true predict req).resp ≠ .invalidFileType ∧
    (upload_and_forecast true predict req).resp ≠ .noFilePart ∧
    (upload_and_forecast true predict req).resp ≠ .noSelectedFile := by
  have hresp : (upload_and_forecast true predict req).resp = .processingError := by
    rcases h7 with h7 | h7 <;>
      simp [upload_and_forecast, h1, h2, h3, processUpload, h4, h5, h6, h7]
  rw [hresp]
  exact ⟨rfl, by simp, by simp, by simp, by simp⟩

/-- Witness for C10: a file whose two rows have a missing date and a
non-numeric level respectively cleans to the empty series and yields the
500 processing error. -/
theorem empty_series_error_witness :
    (upload_and_forecast true (fun _ => 0)
      ⟨true, "levels.xlsx".toList,
        Except.ok ⟨true, true, [(.missing, some 2), (.valid 0, none)]⟩⟩).resp =
      .processingError ∧
    (upload_and_forecast true (fun _ => 0)
      ⟨true, "levels.xlsx".toList,
        Except.ok ⟨true, true, [(.missing, some 2), (.valid 0, none)]⟩⟩).resp ≠
      .missingColumns ∧
    (upload_and_forecast true (fun _ => 0)
      ⟨true, "levels.xlsx".toList,
        Except.ok ⟨true, true, [(.missing, some 2), (.valid 0, none)]⟩⟩).resp ≠
      .invalidFileType ∧
    (upload_and_forecast true (fun _ => 0)
      ⟨true, "levels.xlsx".toList,
        Except.ok ⟨true, true, [(.missing, some 2), (.valid 0, none)]⟩⟩).resp ≠
      .noFilePart ∧
    (upload_and_forecast true (fun _ => 0)
      ⟨true, "levels.xlsx".toList,
        Except.ok ⟨true, true, [(.missing, some 2), (.valid 0, none)]⟩⟩).resp ≠
      .noSelectedFile :=
  empty_series_error (fun _ => 0) _ ⟨true, true, [(.missing, some 2), (.valid 0, none)]⟩
    rfl (by decide) (by decide) rfl rfl rfl (Or.inl (by decide))

/-- Claim C6: every GET of `/` increases the in-memory visitor count by
exactly one; `/api/stats` returns the current count without changing it;
no other route (`/admin`, `/api/upload`, `/api/analyze`, `/api/chat`)
modifies the count; hence over any request sequence the count never
decreases. -/
theorem visitor_count_frame :
    (∀ c : Nat, routeStep .index c = c + 1) ∧
    (∀ c : Nat, (get_stats c).1 = c ∧ routeStep .stats c = c) ∧
    (∀ c : Nat, routeStep .admin c = c ∧ routeStep .upload c = c ∧
      routeStep .analyze c = c ∧ routeStep .chat c = c) ∧
    (∀ (rs : List Route) (c : Nat), c ≤ serveAll rs c) :=
  ⟨fun _ => rfl, fun _ => ⟨rfl, rfl⟩, fun _ => ⟨rfl, rfl, rfl, rfl⟩,
   fun rs c => serveAll_le rs c⟩

end App
